import Mathlib

/-!
Shallow embedding of the interactive Christmas-tree scene:
the gesture classifier (services/gestureService.ts), the scene data model
(types.ts), the per-frame physics integrator, the painter-algorithm draw
list and the interaction controller (components/ChristmasTree.tsx).
JavaScript numbers are modelled as real numbers.
-/

/- ### Gesture service (services/gestureService.ts) -/

inductive GestureType where
  | NONE
  | OPEN_PALM
  | CLOSED_FIST
  | PINCH
  | POINTING
deriving DecidableEq, Repr

/-- One MediaPipe hand landmark, normalized coordinates. -/
structure Landmark where
  x : ℝ
  y : ℝ
  z : ℝ

/-- A detected hand: 21 landmarks indexed as in MediaPipe
(0 = wrist, 4 = thumb tip, 8 = index tip, 12 = middle tip,
16 = ring tip, 20 = pinky tip). -/
def Hand : Type := Fin 21 → Landmark

structure GestureResult where
  gesture : GestureType
  cursor : Option (ℝ × ℝ)

/-- Planar Euclidean distance between two landmarks, exactly as the source
computes it: sqrt of the sum of squared x and y differences (z unused). -/
noncomputable def planarDist (a b : Landmark) : ℝ :=
  Real.sqrt ((a.x - b.x) ^ 2 + (a.y - b.y) ^ 2)

/-- Source: tips.reduce((acc, tip) => acc + d, 0) / 4 over
[indexTip, middleTip, ringTip, pinkyTip] against the wrist. -/
noncomputable def avgTipDistToWrist (h : Hand) : ℝ :=
  ([h 8, h 12, h 16, h 20].foldl (fun acc tip => acc + planarDist tip (h 0)) 0) / 4

/-- detectGesture from services/gestureService.ts. The first argument models
whether the hand landmarker finished initializing; the list holds the
detected hands (the source reads results.landmarks and uses hand 0). -/
noncomputable def detectGesture (initialized : Bool) (hands : List Hand) :
    GestureResult :=
  if !initialized then ⟨GestureType.NONE, none⟩ else
  match hands with
  | [] => ⟨GestureType.NONE, none⟩
  | lm :: _ =>
    let thumbTip := lm 4
    let indexTip := lm 8
    let avgTip := avgTipDistToWrist lm
    let thumbIndexDist := planarDist thumbTip indexTip
    let cursor : Option (ℝ × ℝ) := some (indexTip.x, indexTip.y)
    if thumbIndexDist < 0.05 then ⟨GestureType.PINCH, cursor⟩
    else if avgTip < 0.25 then ⟨GestureType.CLOSED_FIST, cursor⟩
    else if avgTip > 0.4 then ⟨GestureType.OPEN_PALM, cursor⟩
    else ⟨GestureType.POINTING, cursor⟩

/-- Concrete hand used to evaluate the classifier: wrist at the origin,
index and pinky tips at x = 0.1, middle and ring tips at x = 0.2,
thumb tip at x = 0.3, everything on the x axis. -/
noncomputable def handW : Hand := fun i =>
  if i.val = 4 then ⟨0.3, 0, 0⟩
  else if i.val = 8 then ⟨0.1, 0, 0⟩
  else if i.val = 12 then ⟨0.2, 0, 0⟩
  else if i.val = 16 then ⟨0.2, 0, 0⟩
  else if i.val = 20 then ⟨0.1, 0, 0⟩
  else ⟨0, 0, 0⟩

/- ### Scene data model (types.ts) -/

/-- Particle kinds; the source literal FLOWER is what the spec calls
ORNAMENT (the golden orb), per the glossary. -/
inductive ParticleType where
  | FLOWER
  | GIFT
  | SPARKLE
deriving DecidableEq, Repr

structure Particle where
  id : ℕ
  type : ParticleType
  x : ℝ
  y : ℝ
  z : ℝ
  baseX : ℝ
  baseY : ℝ
  baseZ : ℝ
  targetX : ℝ
  targetY : ℝ
  targetZ : ℝ
  color : String
  size : ℝ
  twinklePhase : ℝ
  twinkleSpeed : ℝ
  variant : ℕ

/-- The decoded image handle is an opaque external resource; the model keeps
the geometric attributes the component derives from it. -/
structure PhotoObject where
  id : String
  width : ℝ
  height : ℝ
  aspectRatio : ℝ
  x : ℝ
  y : ℝ
  z : ℝ
  baseX : ℝ
  baseY : ℝ
  baseZ : ℝ
  targetX : ℝ
  targetY : ℝ
  targetZ : ℝ
  opacity : ℝ

/-- The mutable scene state of the ChristmasTree component: particlesRef,
photoObjectsRef, rotationRef, the isExploded prop (owned by App via
setIsExploded) and zoomedPhotoIdRef. -/
structure SceneState where
  particles : List Particle
  photos : List PhotoObject
  rotation : ℝ
  isExploded : Bool
  zoomedPhotoId : Option String

noncomputable def FOCAL_LENGTH : ℝ := 800

/-- The fixed damping factor of updatePhysics. -/
noncomputable def ease : ℝ := 0.05

/-- One exponential easing update, the source pattern
p.v += (target - p.v) * ease. -/
noncomputable def easeStep (target x : ℝ) : ℝ := x + (target - x) * ease

/-- Iterated easing steps toward a fixed target. -/
noncomputable def easeIter : ℕ → ℝ → ℝ → ℝ
  | 0, _, x => x
  | n + 1, target, x => easeIter n target (easeStep target x)

/- ### Physics integrator (updatePhysics in ChristmasTree.tsx) -/

noncomputable def updateParticle (isExploded : Bool) (p : Particle) : Particle :=
  let tx := if isExploded then p.targetX else p.baseX
  let ty := if isExploded then p.targetY else p.baseY
  let tz := if isExploded then p.targetZ else p.baseZ
  { p with x := easeStep tx p.x, y := easeStep ty p.y, z := easeStep tz p.z }

/-- The effective target of a photo: position (x, y, z) and opacity, resolved
by the source 3-way branch on zoomedPhotoId. -/
noncomputable def photoTarget (isExploded : Bool) (zoomedId : Option String)
    (p : PhotoObject) : ℝ × ℝ × ℝ × ℝ :=
  if zoomedId = some p.id then
    (0, 0, -FOCAL_LENGTH + 250, 1)
  else if zoomedId.isSome then
    (p.targetX * 3, p.targetY * 3, p.targetZ, 0)
  else
    (if isExploded then p.targetX else p.baseX,
     if isExploded then p.targetY else p.baseY,
     if isExploded then p.targetZ else p.baseZ,
     if isExploded then 1 else 0)

noncomputable def updatePhoto (isExploded : Bool) (zoomedId : Option String)
    (p : PhotoObject) : PhotoObject :=
  let t := photoTarget isExploded zoomedId p
  { p with
    x := easeStep t.1 p.x
    y := easeStep t.2.1 p.y
    z := easeStep t.2.2.1 p.z
    opacity := easeStep t.2.2.2 p.opacity }

/-- One physics frame: advance rotation unless a photo is zoomed
(0.001 per frame while exploded, 0.003 while collapsed), then ease every
particle and photo toward its effective target. -/
noncomputable def updatePhysics (s : SceneState) : SceneState :=
  { s with
    rotation :=
      if s.zoomedPhotoId = none then
        s.rotation + (if s.isExploded then 0.001 else 0.003)
      else s.rotation
    particles := s.particles.map (updateParticle s.isExploded)
    photos := s.photos.map (updatePhoto s.isExploded s.zoomedPhotoId) }

/- ### Scene model creation (photo sync and particle init) -/

/-- Photo creation on image arrival; r1, r2, r3 are the three uniform [0,1)
draws of the source (targetDist = 200 + random times 150, theta uniform in
[0, 2 pi), phi = acos of a uniform value in [-1, 1)); rest position is the
origin and opacity starts at 0. -/
noncomputable def createPhoto (id : String) (imgW imgH : ℝ) (r1 r2 r3 : ℝ) :
    PhotoObject :=
  let targetDist := 200 + r1 * 150
  let theta := r2 * (2 * Real.pi)
  let phi := Real.arccos (r3 * 2 - 1)
  { id := id
    width := 120
    height := 120 * (imgH / imgW)
    aspectRatio := imgW / imgH
    x := 0, y := 0, z := 0
    baseX := 0, baseY := 0, baseZ := 0
    targetX := targetDist * Real.sin phi * Real.cos theta
    targetY := targetDist * Real.sin phi * Real.sin theta
    targetZ := targetDist * Real.cos phi
    opacity := 0 }

/-- The particle-kind branch of the initialization loop, as a function of
the single uniform [0,1) draw rand. -/
noncomputable def particleTypeOfRand (rand : ℝ) : ParticleType :=
  if rand < 0.10 then ParticleType.SPARKLE
  else if rand < 0.18 then ParticleType.GIFT
  else ParticleType.FLOWER

/- ### Interaction controller (handleInteraction and the gesture effect) -/

/-- The rotated depth key used both by the hit-test sort comparator and by
the renderer: z cos r + x sin r under the current rotation r. -/
noncomputable def rotatedDepth (rot : ℝ) (p : PhotoObject) : ℝ :=
  p.z * Real.cos rot + p.x * Real.sin rot

/-- The hit-test containment check of the source loop: the photo projects in
front of the camera plane (scale > 0) and the input point lies inside the
projected bounding rectangle centered at (rx scale + cw/2, ry scale + ch/2)
with sides width scale and height scale. -/
noncomputable def photoContains (rot cw ch ix iy : ℝ) (p : PhotoObject) : Prop :=
  let c := Real.cos rot
  let s := Real.sin rot
  let rx := p.x * c - p.z * s
  let ry := p.y
  let rz := p.z * c + p.x * s
  let scale := FOCAL_LENGTH / (FOCAL_LENGTH + rz)
  0 < scale ∧
    rx * scale + cw / 2 - p.width * scale / 2 ≤ ix ∧
    ix ≤ rx * scale + cw / 2 + p.width * scale / 2 ∧
    ry * scale + ch / 2 - p.height * scale / 2 ≤ iy ∧
    iy ≤ ry * scale + ch / 2 + p.height * scale / 2

open Classical in
/-- The source for-loop with break: the first photo of the list whose
projected rectangle contains the input point. -/
noncomputable def firstHit (rot cw ch ix iy : ℝ) : List PhotoObject → Option String
  | [] => none
  | p :: ps =>
    if photoContains rot cw ch ix iy p then some p.id
    else firstHit rot cw ch ix iy ps

/-- handleInteraction from ChristmasTree.tsx; cw and ch are the canvas
pixel dimensions, (ix, iy) the input point. onToggleExplode is the App
setter for the explode flag, folded into the returned state. -/
noncomputable def handleInteraction (cw ch ix iy : ℝ) (isRightClick : Bool)
    (s : SceneState) : SceneState :=
  if isRightClick then
    { s with isExploded := false, zoomedPhotoId := none }
  else if s.isExploded = false then
    { s with isExploded := true }
  else if s.zoomedPhotoId.isSome then
    { s with zoomedPhotoId := none }
  else
    let candidates := s.photos.filter (fun p => decide (p.opacity > 0.5))
    let sorted := candidates.insertionSort
      (fun a b => rotatedDepth s.rotation a ≤ rotatedDepth s.rotation b)
    match firstHit s.rotation cw ch ix iy sorted with
    | some id => { s with zoomedPhotoId := some id }
    | none => s

/-- The gesture effect of ChristmasTree.tsx: OPEN_PALM explodes if
collapsed; CLOSED_FIST collapses and clears the zoom; PINCH with a cursor
runs handleInteraction at the mirrored cursor point. -/
noncomputable def applyGesture (g : GestureType) (cursor : Option (ℝ × ℝ))
    (cw ch : ℝ) (s : SceneState) : SceneState :=
  let s1 := if g = GestureType.OPEN_PALM ∧ s.isExploded = false then
    { s with isExploded := true } else s
  let s2 := if g = GestureType.CLOSED_FIST then
    { s1 with isExploded := false, zoomedPhotoId := none } else s1
  match g, cursor with
  | GestureType.PINCH, some c =>
      handleInteraction cw ch ((1 - c.1) * cw) (c.2 * ch) false s2
  | _, _ => s2

/- ### Projective renderer: the unified draw list (draw in ChristmasTree.tsx) -/

structure Vec3 where
  x : ℝ
  y : ℝ
  z : ℝ

instance : Inhabited Vec3 := ⟨⟨0, 0, 0⟩⟩

noncomputable def STAR_RADIUS : ℝ := 35

noncomputable def STAR_DEPTH : ℝ := 10

/-- createStarModel vertices: two apex vertices then, for each of the five
points, an outer vertex at STAR_RADIUS and an inner vertex at 0.4 times
STAR_RADIUS, at 72-degree spacing offset by -18 and +18 degrees. -/
noncomputable def starVertices : List Vec3 :=
  [⟨0, 0, STAR_DEPTH⟩, ⟨0, 0, -STAR_DEPTH⟩] ++
  (List.range 5).flatMap (fun i =>
    let angle := ((i : ℝ) * 72 - 18) * Real.pi / 180
    let angleInner := ((i : ℝ) * 72 + 18) * Real.pi / 180
    [⟨Real.cos angle * STAR_RADIUS, Real.sin angle * STAR_RADIUS, 0⟩,
     ⟨Real.cos angleInner * (STAR_RADIUS * 0.4),
      Real.sin angleInner * (STAR_RADIUS * 0.4), 0⟩])

/-- createStarModel faces: 20 triangles as index triples into starVertices. -/
def starFaces : List (ℕ × ℕ × ℕ) :=
  (List.range 5).flatMap (fun i =>
    let outer := 2 + i * 2
    let inner := 2 + i * 2 + 1
    let nextOuter := 2 + ((i + 1) % 5) * 2
    [(0, outer, inner), (0, inner, nextOuter),
     (1, inner, outer), (1, nextOuter, inner)])

/-- One entry of the unified drawable list. The per-face fill color and
lighting of star faces are paint-only attributes not modelled here; the
geometry and the depth key are. -/
inductive DrawItem where
  | particle (p : Particle) (rx ry rz : ℝ)
  | photo (p : PhotoObject) (rx ry rz : ℝ)
  | starFace (v0 v1 v2 : Vec3) (avgZ : ℝ)

/-- The sort key the source stores on each item: the rotated z for particles
and photos, the average rotated vertex z for star faces. -/
noncomputable def DrawItem.sortZ : DrawItem → ℝ
  | .particle _ _ _ rz => rz
  | .photo _ _ _ rz => rz
  | .starFace _ _ _ avgZ => avgZ

def DrawItem.isStarFace : DrawItem → Bool
  | .starFace _ _ _ _ => true
  | _ => false

/-- The star-vertex transform of the draw step: rotate (x, z) about the
vertical axis and translate y by starY. -/
noncomputable def rotateStarVert (c s starY : ℝ) (v : Vec3) : Vec3 :=
  ⟨v.x * c - v.z * s, v.y + starY, v.z * c + v.x * s⟩

/-- The unified drawable list the draw step builds each frame: all
particles (rotated), all photos (rotated, except the zoomed photo which
keeps its raw coordinates), and the 20 star faces only when no photo is
zoomed; treeHeight is the responsive tree height from the dimensions
state. -/
noncomputable def buildDrawList (st : SceneState) (treeHeight : ℝ) :
    List DrawItem :=
  let c := Real.cos st.rotation
  let s := Real.sin st.rotation
  (st.particles.map fun p =>
    DrawItem.particle p (p.x * c - p.z * s) p.y (p.z * c + p.x * s)) ++
  (st.photos.map fun p =>
    DrawItem.photo p
      (if st.zoomedPhotoId = some p.id then p.x else p.x * c - p.z * s)
      p.y
      (if st.zoomedPhotoId = some p.id then p.z else p.z * c + p.x * s)) ++
  (if st.zoomedPhotoId = none then
    let starY := -treeHeight / 2 - 20
    let tv := starVertices.map (rotateStarVert c s starY)
    starFaces.map (fun f =>
      let v0 := tv.getD f.1 default
      let v1 := tv.getD f.2.1 default
      let v2 := tv.getD f.2.2 default
      DrawItem.starFace v0 v1 v2 ((v0.z + v1.z + v2.z) / 3))
  else [])

/-- The draw order: the unified list sorted by descending sortZ (the source
comparator (a, b) => b.sortZ - a.sortZ), farthest first. -/
noncomputable def drawOrder (st : SceneState) (treeHeight : ℝ) : List DrawItem :=
  (buildDrawList st treeHeight).insertionSort
    (fun a b => DrawItem.sortZ b ≤ DrawItem.sortZ a)

/- ### Concrete scene fixtures used to evaluate the model -/

/-- A concrete photo at the scene origin with explosion target (100,100,100). -/
noncomputable def cPhoto : PhotoObject :=
  { id := "p1"
    width := 120, height := 120, aspectRatio := 1
    x := 0, y := 0, z := 0
    baseX := 0, baseY := 0, baseZ := 0
    targetX := 100, targetY := 100, targetZ := 100
    opacity := 0 }

/-- A scene with no particles and no photos, exploded, nothing zoomed. -/
noncomputable def sFree : SceneState :=
  { particles := [], photos := [], rotation := 0
    isExploded := true, zoomedPhotoId := none }

/-- A fully visible photo at the origin: its projected rectangle on an
800 by 800 canvas at rotation 0 is centered at (400, 400) with sides 120. -/
noncomputable def pHit : PhotoObject := { cPhoto with id := "hit", opacity := 0.9 }

/-- Exploded scene holding only pHit, nothing zoomed. -/
noncomputable def sHit : SceneState :=
  { particles := [], photos := [pHit], rotation := 0
    isExploded := true, zoomedPhotoId := none }

/-- Like pHit but with opacity exactly 0.5, the candidacy boundary. -/
noncomputable def pBound : PhotoObject :=
  { cPhoto with id := "bound", opacity := 0.5 }

/-- Exploded scene holding only pBound, nothing zoomed. -/
noncomputable def sBound : SceneState := { sHit with photos := [pBound] }

/-- A photo at x = 1, z = 0 used while zoomed. -/
noncomputable def pZoom : PhotoObject := { cPhoto with id := "z1", x := 1 }

/-- Scene rotated to pi/2 with pZoom zoomed: the rotated z of pZoom is 1
but the draw list tags it with its raw z = 0. -/
noncomputable def sZoom : SceneState :=
  { particles := [], photos := [pZoom], rotation := Real.pi / 2
    isExploded := true, zoomedPhotoId := some "z1" }

/- ### Theorems -/

/-- Claim C1: with a detected hand the gesture is classified by this exact
priority: thumb-to-index planar distance < 0.05 gives PINCH first;
otherwise mean fingertip-to-wrist distance < 0.25 gives CLOSED_FIST;
otherwise that mean > 0.4 gives OPEN_PALM; otherwise POINTING; the cursor
is always the index fingertip normalized (x, y). With no detected hand the
result is NONE with a null cursor. -/
theorem detectGesture_classification (h : Hand) (rest : List Hand) :
    detectGesture true [] = ⟨GestureType.NONE, none⟩ ∧
    (planarDist (h 4) (h 8) < 0.05 →
      detectGesture true (h :: rest) =
        ⟨GestureType.PINCH, some ((h 8).x, (h 8).y)⟩) ∧
    (¬ planarDist (h 4) (h 8) < 0.05 →
      (planarDist (h 8) (h 0) + planarDist (h 12) (h 0) +
        planarDist (h 16) (h 0) + planarDist (h 20) (h 0)) / 4 < 0.25 →
      detectGesture true (h :: rest) =
        ⟨GestureType.CLOSED_FIST, some ((h 8).x, (h 8).y)⟩) ∧
    (¬ planarDist (h 4) (h 8) < 0.05 →
      ¬ (planarDist (h 8) (h 0) + planarDist (h 12) (h 0) +
        planarDist (h 16) (h 0) + planarDist (h 20) (h 0)) / 4 < 0.25 →
      (planarDist (h 8) (h 0) + planarDist (h 12) (h 0) +
        planarDist (h 16) (h 0) + planarDist (h 20) (h 0)) / 4 > 0.4 →
      detectGesture true (h :: rest) =
        ⟨GestureType.OPEN_PALM, some ((h 8).x, (h 8).y)⟩) ∧
    (¬ planarDist (h 4) (h 8) < 0.05 →
      ¬ (planarDist (h 8) (h 0) + planarDist (h 12) (h 0) +
        planarDist (h 16) (h 0) + planarDist (h 20) (h 0)) / 4 < 0.25 →
      ¬ (planarDist (h 8) (h 0) + planarDist (h 12) (h 0) +
        planarDist (h 16) (h 0) + planarDist (h 20) (h 0)) / 4 > 0.4 →
      detectGesture true (h :: rest) =
        ⟨GestureType.POINTING, some ((h 8).x, (h 8).y)⟩) := by
  have hm : avgTipDistToWrist h =
      (planarDist (h 8) (h 0) + planarDist (h 12) (h 0) +
        planarDist (h 16) (h 0) + planarDist (h 20) (h 0)) / 4 := by
    simp only [avgTipDistToWrist, List.foldl]
    ring
  refine ⟨by simp [detectGesture], ?_, ?_, ?_, ?_⟩
  · intro h1
    simp [detectGesture, h1]
  · intro h1 h2
    rw [← hm] at h2
    simp [detectGesture, h1, h2]
  · intro h1 h2 h3
    rw [← hm] at h2 h3
    simp [detectGesture, h1, h2, h3]
  · intro h1 h2 h3
    rw [← hm] at h2 h3
    simp [detectGesture, h1, h2, h3]

/-- Witness for C1: the concrete hand handW has thumb-to-index distance 0.2
and mean fingertip-to-wrist distance 0.15, hence CLOSED_FIST. -/
theorem detectGesture_classification_witness :
    detectGesture true [handW] = ⟨GestureType.CLOSED_FIST, some (0.1, 0)⟩ := by
  have e0 : handW 0 = ⟨0, 0, 0⟩ := rfl
  have e4 : handW 4 = ⟨0.3, 0, 0⟩ := rfl
  have e8 : handW 8 = ⟨0.1, 0, 0⟩ := rfl
  have e12 : handW 12 = ⟨0.2, 0, 0⟩ := rfl
  have e16 : handW 16 = ⟨0.2, 0, 0⟩ := rfl
  have e20 : handW 20 = ⟨0.1, 0, 0⟩ := rfl
  have sq1 : Real.sqrt (((0.1:ℝ) - 0) ^ 2 + (0 - 0) ^ 2) = 0.1 := by
    rw [show ((0.1:ℝ) - 0) ^ 2 + (0 - 0) ^ 2 = 0.1 ^ 2 by norm_num]
    exact Real.sqrt_sq (by norm_num)
  have sq2 : Real.sqrt (((0.2:ℝ) - 0) ^ 2 + (0 - 0) ^ 2) = 0.2 := by
    rw [show ((0.2:ℝ) - 0) ^ 2 + (0 - 0) ^ 2 = 0.2 ^ 2 by norm_num]
    exact Real.sqrt_sq (by norm_num)
  have d48 : planarDist (handW 4) (handW 8) = 0.2 := by
    rw [e4, e8]
    show Real.sqrt (((0.3:ℝ) - 0.1) ^ 2 + (0 - 0) ^ 2) = 0.2
    rw [show ((0.3:ℝ) - 0.1) ^ 2 + (0 - 0) ^ 2 = 0.2 ^ 2 by norm_num]
    exact Real.sqrt_sq (by norm_num)
  have d8 : planarDist (handW 8) (handW 0) = 0.1 := by
    rw [e8, e0]; exact sq1
  have d12 : planarDist (handW 12) (handW 0) = 0.2 := by
    rw [e12, e0]; exact sq2
  have d16 : planarDist (handW 16) (handW 0) = 0.2 := by
    rw [e16, e0]; exact sq2
  have d20 : planarDist (handW 20) (handW 0) = 0.1 := by
    rw [e20, e0]; exact sq1
  have res := (detectGesture_classification handW []).2.2.1
    (by rw [d48]; norm_num)
    (by rw [d8, d12, d16, d20]; norm_num)
  rw [res, e8]

theorem easeStep_sub (t x : ℝ) : t - easeStep t x = 0.95 * (t - x) := by
  simp only [easeStep, ease]
  ring

theorem easeIter_sub : ∀ (n : ℕ) (t x : ℝ),
    t - easeIter n t x = 0.95 ^ n * (t - x)
  | 0, t, x => by simp [easeIter]
  | n + 1, t, x => by
    rw [easeIter, easeIter_sub n t (easeStep t x), easeStep_sub]
    ring

/-- Claim C2: for the per-frame easing update with damping factor 0.05 and a
fixed target, the distance to the target never increases from one step to
the next, the value never passes the target (the step stays weakly on the
same side), and any start within distance 10 of the target is within 0.001
of it after 200 steps. -/
theorem easeStep_monotone_convergence (t : ℝ) :
    (∀ x : ℝ, |t - easeStep t x| ≤ |t - x|) ∧
    (∀ x : ℝ, 0 ≤ (t - easeStep t x) * (t - x)) ∧
    (∀ x : ℝ, |t - x| ≤ 10 → |t - easeIter 200 t x| ≤ 0.001) := by
  refine ⟨?_, ?_, ?_⟩
  · intro x
    rw [easeStep_sub, abs_mul, show |(0.95:ℝ)| = 0.95 by norm_num]
    nlinarith [abs_nonneg (t - x)]
  · intro x
    rw [easeStep_sub]
    nlinarith [sq_nonneg (t - x)]
  · intro x hx
    rw [easeIter_sub 200 t x, abs_mul, abs_pow,
      show |(0.95:ℝ)| = 0.95 by norm_num]
    calc (0.95:ℝ) ^ 200 * |t - x| ≤ (0.95:ℝ) ^ 200 * 10 := by
          exact mul_le_mul_of_nonneg_left hx (by positivity)
      _ ≤ 0.001 := by norm_num

/-- Witness for C2: starting at distance 1 from target 0, after 200 steps
the value is within 0.001 of the target. -/
theorem easeStep_monotone_convergence_witness :
    |(0:ℝ) - easeIter 200 0 1| ≤ 0.001 :=
  (easeStep_monotone_convergence 0).2.2 1 (by norm_num)

/-- Counterexample to C3: when another photo is zoomed, the code scales only
targetX and targetY by 3; targetZ is left unscaled. For cPhoto (at the
origin, explosion target (100,100,100)) with some other photo zoomed, the
eased z is 5 = 0 + (100 - 0) * 0.05, while the claim predicts
15 = 0 + (3 * 100 - 0) * 0.05. -/
theorem updatePhoto_z_not_tripled :
    (updatePhoto false (some "w") cPhoto).z = 5 ∧
    cPhoto.z + (3 * cPhoto.targetZ - cPhoto.z) * ease = 15 ∧
    (5 : ℝ) ≠ 15 := by
  refine ⟨?_, ?_, by norm_num⟩
  · show easeStep (photoTarget false (some "w") cPhoto).2.2.1 cPhoto.z = 5
    rw [show photoTarget false (some "w") cPhoto =
        (cPhoto.targetX * 3, cPhoto.targetY * 3, cPhoto.targetZ, 0) by
      simp [photoTarget, cPhoto]]
    simp [easeStep, ease, cPhoto]
    norm_num
  · simp [cPhoto, ease]
    norm_num

/-- Claim C3 (amended): in every physics step, the zoomed photo eases toward
the scene center at the fixed forward offset z = -FOCAL_LENGTH + 250 with
opacity target 1; while some other photo is zoomed, a photo eases toward
(3 targetX, 3 targetY, targetZ) - x and y scaled by 3, z unchanged - with
opacity target 0; with nothing zoomed it eases toward its explosion target
or rest position according to the explode flag, opacity target 1 if
exploded else 0. -/
theorem photoTarget_resolution (e : Bool) (zid : Option String)
    (p : PhotoObject) :
    (zid = some p.id →
      updatePhoto e zid p = { p with
        x := easeStep 0 p.x
        y := easeStep 0 p.y
        z := easeStep (-FOCAL_LENGTH + 250) p.z
        opacity := easeStep 1 p.opacity }) ∧
    (zid ≠ some p.id → zid.isSome = true →
      updatePhoto e zid p = { p with
        x := easeStep (p.targetX * 3) p.x
        y := easeStep (p.targetY * 3) p.y
        z := easeStep p.targetZ p.z
        opacity := easeStep 0 p.opacity }) ∧
    (zid = none →
      updatePhoto e zid p = { p with
        x := easeStep (if e then p.targetX else p.baseX) p.x
        y := easeStep (if e then p.targetY else p.baseY) p.y
        z := easeStep (if e then p.targetZ else p.baseZ) p.z
        opacity := easeStep (if e then (1:ℝ) else 0) p.opacity }) := by
  refine ⟨?_, ?_, ?_⟩
  · intro h1
    simp [updatePhoto, photoTarget, h1]
  · intro h1 h2
    simp [updatePhoto, photoTarget, h1, h2]
  · intro h1
    simp [updatePhoto, photoTarget, h1]

/-- Witness for C3 (amended): the zoomed branch evaluated at cPhoto. -/
theorem photoTarget_resolution_witness :
    updatePhoto false (some "p1") cPhoto = { cPhoto with
      x := easeStep 0 cPhoto.x
      y := easeStep 0 cPhoto.y
      z := easeStep (-FOCAL_LENGTH + 250) cPhoto.z
      opacity := easeStep 1 cPhoto.opacity } :=
  (photoTarget_resolution false (some "p1") cPhoto).1 rfl

/-- Claim C5: the physics step leaves the rotation unchanged whenever a
photo is zoomed, otherwise advances it by 0.001 while exploded and by 0.003
while collapsed (a strictly smaller increment while exploded); the rotation
is monotonically non-decreasing over every sequence of frames. -/
theorem updatePhysics_rotation (s : SceneState) :
    (s.zoomedPhotoId.isSome = true → (updatePhysics s).rotation = s.rotation) ∧
    (s.zoomedPhotoId = none → s.isExploded = true →
      (updatePhysics s).rotation = s.rotation + 0.001) ∧
    (s.zoomedPhotoId = none → s.isExploded = false →
      (updatePhysics s).rotation = s.rotation + 0.003) ∧
    (s.zoomedPhotoId = none →
      (updatePhysics { s with isExploded := true }).rotation - s.rotation <
        (updatePhysics { s with isExploded := false }).rotation - s.rotation) ∧
    s.rotation ≤ (updatePhysics s).rotation ∧
    Monotone (fun n : ℕ => (updatePhysics^[n] s).rotation) := by
  have hle : ∀ u : SceneState, u.rotation ≤ (updatePhysics u).rotation := by
    intro u
    by_cases hz : u.zoomedPhotoId = none <;>
      cases hE : u.isExploded <;>
        simp [updatePhysics, hz, hE] <;> norm_num
  refine ⟨?_, ?_, ?_, ?_, hle s, ?_⟩
  · intro h
    have hz : ¬ s.zoomedPhotoId = none := by
      intro hn
      rw [hn] at h
      simp at h
    simp [updatePhysics, hz]
  · intro hz hE
    simp [updatePhysics, hz, hE]
  · intro hz hE
    simp [updatePhysics, hz, hE]
  · intro hz
    simp [updatePhysics, hz]
    norm_num
  · apply monotone_nat_of_le_succ
    intro n
    rw [Function.iterate_succ_apply']
    exact hle _

/-- Witness for C5: in the exploded, nothing-zoomed fixture the rotation
advances by exactly 0.001. -/
theorem updatePhysics_rotation_witness :
    (updatePhysics sFree).rotation = sFree.rotation + 0.001 :=
  (updatePhysics_rotation sFree).2.1 rfl rfl

/-- Claim C9: the physics step mutates only current position (and photo
opacity): every creation-time attribute of particles (id, kind, rest
position, explosion target, color, size, variant, twinkle parameters) and
of photos (id, width, height, aspect ratio, rest position, explosion
target) is unchanged by every physics update. -/
theorem updatePhysics_preserves_creation_fields (e : Bool)
    (zid : Option String) (p : Particle) (q : PhotoObject) :
    (updateParticle e p).id = p.id ∧
    (updateParticle e p).type = p.type ∧
    (updateParticle e p).baseX = p.baseX ∧
    (updateParticle e p).baseY = p.baseY ∧
    (updateParticle e p).baseZ = p.baseZ ∧
    (updateParticle e p).targetX = p.targetX ∧
    (updateParticle e p).targetY = p.targetY ∧
    (updateParticle e p).targetZ = p.targetZ ∧
    (updateParticle e p).color = p.color ∧
    (updateParticle e p).size = p.size ∧
    (updateParticle e p).twinklePhase = p.twinklePhase ∧
    (updateParticle e p).twinkleSpeed = p.twinkleSpeed ∧
    (updateParticle e p).variant = p.variant ∧
    (updatePhoto e zid q).id = q.id ∧
    (updatePhoto e zid q).width = q.width ∧
    (updatePhoto e zid q).height = q.height ∧
    (updatePhoto e zid q).aspectRatio = q.aspectRatio ∧
    (updatePhoto e zid q).baseX = q.baseX ∧
    (updatePhoto e zid q).baseY = q.baseY ∧
    (updatePhoto e zid q).baseZ = q.baseZ ∧
    (updatePhoto e zid q).targetX = q.targetX ∧
    (updatePhoto e zid q).targetY = q.targetY ∧
    (updatePhoto e zid q).targetZ = q.targetZ :=
  ⟨rfl, rfl, rfl, rfl, rfl, rfl, rfl, rfl, rfl, rfl, rfl, rfl, rfl,
   rfl, rfl, rfl, rfl, rfl, rfl, rfl, rfl, rfl, rfl⟩

/-- Claim C10: photo opacity starts at 0 on creation, the per-step opacity
target is always exactly 0 or 1, and the easing update keeps opacity
inside the interval from 0 to 1. -/
theorem photo_opacity_invariant :
    (∀ (id : String) (imgW imgH r1 r2 r3 : ℝ),
      (createPhoto id imgW imgH r1 r2 r3).opacity = 0) ∧
    (∀ (e : Bool) (zid : Option String) (p : PhotoObject),
      (photoTarget e zid p).2.2.2 = 0 ∨ (photoTarget e zid p).2.2.2 = 1) ∧
    (∀ (e : Bool) (zid : Option String) (p : PhotoObject),
      0 ≤ p.opacity → p.opacity ≤ 1 →
      0 ≤ (updatePhoto e zid p).opacity ∧ (updatePhoto e zid p).opacity ≤ 1) := by
  have htarget : ∀ (e : Bool) (zid : Option String) (p : PhotoObject),
      (photoTarget e zid p).2.2.2 = 0 ∨ (photoTarget e zid p).2.2.2 = 1 := by
    intro e zid p
    unfold photoTarget
    by_cases h1 : zid = some p.id
    · simp [h1]
    · by_cases h2 : zid.isSome
      · simp [h1, h2]
      · cases e <;> simp [h1, h2]
  refine ⟨fun _ _ _ _ _ _ => rfl, htarget, ?_⟩
  intro e zid p h0 h1
  have hop : (updatePhoto e zid p).opacity
      = easeStep (photoTarget e zid p).2.2.2 p.opacity := rfl
  rcases htarget e zid p with h | h <;>
    rw [hop, h] <;> constructor <;> simp [easeStep, ease] <;> nlinarith

/-- Witness for C10: the bounds-preservation part evaluated at cPhoto
(opacity 0). -/
theorem photo_opacity_invariant_witness :
    0 ≤ (updatePhoto true none cPhoto).opacity ∧
      (updatePhoto true none cPhoto).opacity ≤ 1 :=
  photo_opacity_invariant.2.2 true none cPhoto
    (by simp [cPhoto]) (by simp [cPhoto])

/-- Claim C7: particle kind is determined from a single uniform [0,1) draw:
below 0.10 SPARKLE, in [0.10, 0.18) GIFT, the rest ORNAMENT (source literal
FLOWER); within [0,1) the preimages are intervals of lengths 0.10, 0.08 and
0.82, matching the expected population fractions. -/
theorem particleType_distribution :
    (∀ r : ℝ, r < 0.10 → particleTypeOfRand r = ParticleType.SPARKLE) ∧
    (∀ r : ℝ, 0.10 ≤ r → r < 0.18 → particleTypeOfRand r = ParticleType.GIFT) ∧
    (∀ r : ℝ, 0.18 ≤ r → particleTypeOfRand r = ParticleType.FLOWER) ∧
    { r ∈ Set.Ico (0:ℝ) 1 | particleTypeOfRand r = ParticleType.SPARKLE }
      = Set.Ico 0 0.10 ∧
    { r ∈ Set.Ico (0:ℝ) 1 | particleTypeOfRand r = ParticleType.GIFT }
      = Set.Ico 0.10 0.18 ∧
    { r ∈ Set.Ico (0:ℝ) 1 | particleTypeOfRand r = ParticleType.FLOWER }
      = Set.Ico 0.18 1 ∧
    MeasureTheory.volume
      { r ∈ Set.Ico (0:ℝ) 1 | particleTypeOfRand r = ParticleType.SPARKLE }
      = ENNReal.ofReal 0.10 ∧
    MeasureTheory.volume
      { r ∈ Set.Ico (0:ℝ) 1 | particleTypeOfRand r = ParticleType.GIFT }
      = ENNReal.ofReal 0.08 ∧
    MeasureTheory.volume
      { r ∈ Set.Ico (0:ℝ) 1 | particleTypeOfRand r = ParticleType.FLOWER }
      = ENNReal.ofReal 0.82 := by
  have hS : ∀ r : ℝ, particleTypeOfRand r = ParticleType.SPARKLE ↔ r < 0.10 := by
    intro r
    unfold particleTypeOfRand
    split_ifs with h1 h2
    · exact iff_of_true rfl h1
    · exact iff_of_false (by simp) h1
    · exact iff_of_false (by simp) h1
  have hG : ∀ r : ℝ, particleTypeOfRand r = ParticleType.GIFT ↔
      (0.10 ≤ r ∧ r < 0.18) := by
    intro r
    unfold particleTypeOfRand
    split_ifs with h1 h2
    · exact iff_of_false (by simp) (by intro hc; linarith [hc.1])
    · exact iff_of_true rfl ⟨by linarith, h2⟩
    · exact iff_of_false (by simp) (by intro hc; exact h2 hc.2)
  have hF : ∀ r : ℝ, particleTypeOfRand r = ParticleType.FLOWER ↔ 0.18 ≤ r := by
    intro r
    unfold particleTypeOfRand
    split_ifs with h1 h2
    · exact iff_of_false (by simp) (by intro hc; linarith)
    · exact iff_of_false (by simp) (by intro hc; linarith)
    · exact iff_of_true rfl (by linarith)
  have eS : { r ∈ Set.Ico (0:ℝ) 1 | particleTypeOfRand r = ParticleType.SPARKLE }
      = Set.Ico 0 0.10 := by
    ext r
    simp only [Set.mem_setOf_eq, Set.mem_Ico, hS r]
    constructor
    · rintro ⟨⟨h0, _⟩, h2⟩
      exact ⟨h0, h2⟩
    · rintro ⟨h0, h2⟩
      exact ⟨⟨h0, by linarith⟩, h2⟩
  have eG : { r ∈ Set.Ico (0:ℝ) 1 | particleTypeOfRand r = ParticleType.GIFT }
      = Set.Ico 0.10 0.18 := by
    ext r
    simp only [Set.mem_setOf_eq, Set.mem_Ico, hG r]
    constructor
    · rintro ⟨⟨_, _⟩, h2, h3⟩
      exact ⟨h2, h3⟩
    · rintro ⟨h2, h3⟩
      exact ⟨⟨by linarith, by linarith⟩, h2, h3⟩
  have eF : { r ∈ Set.Ico (0:ℝ) 1 | particleTypeOfRand r = ParticleType.FLOWER }
      = Set.Ico 0.18 1 := by
    ext r
    simp only [Set.mem_setOf_eq, Set.mem_Ico, hF r]
    constructor
    · rintro ⟨⟨_, h1⟩, h2⟩
      exact ⟨h2, h1⟩
    · rintro ⟨h2, h1⟩
      exact ⟨⟨by linarith, h1⟩, h2⟩
  refine ⟨fun r h => (hS r).mpr h, fun r h1 h2 => (hG r).mpr ⟨h1, h2⟩,
    fun r h => (hF r).mpr h, eS, eG, eF, ?_, ?_, ?_⟩
  · rw [eS, Real.volume_Ico, show (0.10:ℝ) - 0 = 0.10 by norm_num]
  · rw [eG, Real.volume_Ico, show (0.18:ℝ) - 0.10 = 0.08 by norm_num]
  · rw [eF, Real.volume_Ico, show (1:ℝ) - 0.18 = 0.82 by norm_num]

/-- Witness for C7: a draw of 0.15 falls in the GIFT band. -/
theorem particleType_distribution_witness :
    particleTypeOfRand 0.15 = ParticleType.GIFT :=
  particleType_distribution.2.1 0.15 (by norm_num) (by norm_num)

/-- Claim C8: from every scene state, a right-click and a CLOSED_FIST
gesture each unconditionally collapse the scene (explode flag false) and
clear the zoomed photo id. -/
theorem cancel_actions_collapse (s : SceneState) (cw ch ix iy : ℝ)
    (cursor : Option (ℝ × ℝ)) :
    handleInteraction cw ch ix iy true s
      = { s with isExploded := false, zoomedPhotoId := none } ∧
    applyGesture GestureType.CLOSED_FIST cursor cw ch s
      = { s with isExploded := false, zoomedPhotoId := none } := by
  constructor
  · simp [handleInteraction]
  · cases cursor <;> simp [applyGesture]

theorem firstHit_none_iff (rot cw ch ix iy : ℝ) (l : List PhotoObject) :
    firstHit rot cw ch ix iy l = none ↔
      ∀ p ∈ l, ¬ photoContains rot cw ch ix iy p := by
  induction l with
  | nil => simp [firstHit]
  | cons p ps ih =>
    by_cases h : photoContains rot cw ch ix iy p
    · simp [firstHit, h]
    · simp [firstHit, h, ih]

theorem firstHit_some_min (rot cw ch ix iy : ℝ) (key : PhotoObject → ℝ) :
    ∀ l : List PhotoObject, List.Sorted (fun a b => key a ≤ key b) l →
      ∀ id, firstHit rot cw ch ix iy l = some id →
      ∃ p ∈ l, p.id = id ∧ photoContains rot cw ch ix iy p ∧
        ∀ q ∈ l, photoContains rot cw ch ix iy q → key p ≤ key q := by
  intro l
  induction l with
  | nil => intro _ id h; simp [firstHit] at h
  | cons p ps ih =>
    intro hs id h
    rw [List.sorted_cons] at hs
    by_cases hc : photoContains rot cw ch ix iy p
    · rw [firstHit, if_pos hc] at h
      refine ⟨p, List.mem_cons_self p ps, Option.some.inj h, hc, ?_⟩
      intro q hq _
      rcases List.mem_cons.mp hq with rfl | hq
      · exact le_refl _
      · exact hs.1 q hq
    · rw [firstHit, if_neg hc] at h
      obtain ⟨p', hp', hid, hcp', hmin⟩ := ih hs.2 id h
      refine ⟨p', List.mem_cons_of_mem _ hp', hid, hcp', ?_⟩
      intro q hq hcq
      rcases List.mem_cons.mp hq with rfl | hq
      · exact absurd hcq hc
      · exact hmin q hq hcq

theorem photoContains_origin (p : PhotoObject) (hx : p.x = 0) (hy : p.y = 0)
    (hz : p.z = 0) (hw : p.width = 120) (hh : p.height = 120) :
    photoContains 0 800 800 400 400 p := by
  unfold photoContains
  rw [hx, hy, hz, hw, hh]
  norm_num [FOCAL_LENGTH, Real.cos_zero, Real.sin_zero]

theorem handleInteraction_hit_branch (cw ch ix iy : ℝ) (s : SceneState)
    (hE : s.isExploded = true) (hZ : s.zoomedPhotoId = none) :
    handleInteraction cw ch ix iy false s =
      (match firstHit s.rotation cw ch ix iy
          ((s.photos.filter (fun p => decide (p.opacity > 0.5))).insertionSort
            (fun a b => rotatedDepth s.rotation a ≤ rotatedDepth s.rotation b)) with
        | some id => { s with zoomedPhotoId := some id }
        | none => s) := by
  unfold handleInteraction
  rw [if_neg (by simp), if_neg (by simp [hE]), if_neg (by simp [hZ])]

/-- Counterexample to C4: the code filters hit-test candidates by opacity
strictly greater than 0.5, so a photo at exactly 50 percent opacity is not
a candidate. In sBound (EXPLODED, nothing zoomed) the only photo pBound has
opacity exactly 0.5 and its projected rectangle contains the input point
(400, 400) on an 800 by 800 canvas, yet the primary select leaves the
state unchanged instead of selecting it. -/
theorem hitTest_boundary_opacity_cex :
    pBound.opacity = 0.5 ∧
    photoContains sBound.rotation 800 800 400 400 pBound ∧
    sBound.photos = [pBound] ∧ sBound.isExploded = true ∧
    sBound.zoomedPhotoId = none ∧
    handleInteraction 800 800 400 400 false sBound = sBound := by
  have hrot : sBound.rotation = 0 := rfl
  have hcont : photoContains 0 800 800 400 400 pBound :=
    photoContains_origin pBound rfl rfl rfl rfl rfl
  refine ⟨rfl, by rw [hrot]; exact hcont, rfl, rfl, rfl, ?_⟩
  rw [handleInteraction_hit_branch 800 800 400 400 sBound rfl rfl]
  have hcond : (decide (pBound.opacity > 0.5)) = false := by
    apply decide_eq_false
    show ¬ pBound.opacity > 0.5
    rw [show pBound.opacity = 0.5 from rfl]
    norm_num
  have hfilter : sBound.photos.filter (fun p => decide (p.opacity > 0.5)) = [] := by
    show [pBound].filter (fun p => decide (p.opacity > 0.5)) = []
    rw [List.filter_cons, hcond]
    simp
  rw [hfilter]
  simp [firstHit]

/-- Claim C4 (amended): for a primary select in the EXPLODED state with
nothing zoomed, the hit-test candidates are the photos with opacity
strictly greater than 50 percent (not at least 50 percent); the photo
selected contains the input point in its projected rectangle and has
minimal rotated depth z cos r + x sin r among all containing candidates;
if no candidate contains the point the state is unchanged; nothing other
than the zoomed photo id changes. -/
theorem hitTest_selects_nearest (s : SceneState) (cw ch ix iy : ℝ)
    (hE : s.isExploded = true) (hZ : s.zoomedPhotoId = none) :
    ((∀ p ∈ s.photos, p.opacity > 0.5 →
        ¬ photoContains s.rotation cw ch ix iy p) →
      handleInteraction cw ch ix iy false s = s) ∧
    (∀ id, (handleInteraction cw ch ix iy false s).zoomedPhotoId = some id →
      ∃ p ∈ s.photos, p.id = id ∧ p.opacity > 0.5 ∧
        photoContains s.rotation cw ch ix iy p ∧
        ∀ q ∈ s.photos, q.opacity > 0.5 →
          photoContains s.rotation cw ch ix iy q →
          rotatedDepth s.rotation p ≤ rotatedDepth s.rotation q) ∧
    ((∃ p ∈ s.photos, p.opacity > 0.5 ∧
        photoContains s.rotation cw ch ix iy p) →
      ∃ id, (handleInteraction cw ch ix iy false s).zoomedPhotoId = some id) ∧
    (handleInteraction cw ch ix iy false s).particles = s.particles ∧
    (handleInteraction cw ch ix iy false s).photos = s.photos ∧
    (handleInteraction cw ch ix iy false s).rotation = s.rotation ∧
    (handleInteraction cw ch ix iy false s).isExploded = true := by
  have hred := handleInteraction_hit_branch cw ch ix iy s hE hZ
  set key := rotatedDepth s.rotation with hkey
  set candidates := s.photos.filter (fun p => decide (p.opacity > 0.5))
    with hcand
  set L := candidates.insertionSort (fun a b => key a ≤ key b) with hL
  have hmemL : ∀ p, p ∈ L ↔ (p ∈ s.photos ∧ p.opacity > 0.5) := by
    intro p
    rw [hL]
    rw [(List.perm_insertionSort (fun a b => key a ≤ key b) candidates).mem_iff]
    rw [hcand, List.mem_filter]
    simp
  haveI instTot : IsTotal PhotoObject (fun a b => key a ≤ key b) :=
    ⟨fun a b => le_total (key a) (key b)⟩
  haveI instTrans : IsTrans PhotoObject (fun a b => key a ≤ key b) :=
    ⟨fun _ _ _ hab hbc => le_trans hab hbc⟩
  have hsorted : List.Sorted (fun a b => key a ≤ key b) L :=
    List.sorted_insertionSort (fun a b => key a ≤ key b) candidates
  rcases hfh : firstHit s.rotation cw ch ix iy L with _ | id0
  · have hnone : ∀ p ∈ L, ¬ photoContains s.rotation cw ch ix iy p :=
      (firstHit_none_iff s.rotation cw ch ix iy L).mp hfh
    have hs' : handleInteraction cw ch ix iy false s = s := by
      rw [hred, hfh]
    refine ⟨fun _ => hs', ?_, ?_, by rw [hs'], by rw [hs'], by rw [hs'],
      by rw [hs', hE]⟩
    · intro id h
      rw [hs', hZ] at h
      exact absurd h (by simp)
    · rintro ⟨p, hp, hop, hcont⟩
      exact absurd hcont (hnone p ((hmemL p).mpr ⟨hp, hop⟩))
  · obtain ⟨p, hpL, hpid, hpcont, hpmin⟩ :=
      firstHit_some_min s.rotation cw ch ix iy key L hsorted id0 hfh
    have hs' : handleInteraction cw ch ix iy false s =
        { s with zoomedPhotoId := some id0 } := by
      rw [hred, hfh]
    obtain ⟨hpmem, hpop⟩ := (hmemL p).mp hpL
    refine ⟨?_, ?_, fun _ => ⟨id0, by rw [hs']⟩, by rw [hs'], by rw [hs'],
      by rw [hs'], by rw [hs', hE]⟩
    · intro habs
      exact absurd hpcont (habs p hpmem hpop)
    · intro id h
      rw [hs'] at h
      have hid : id0 = id := by
        simpa using h
      refine ⟨p, hpmem, hid ▸ hpid, hpop, hpcont, ?_⟩
      intro q hq hqop hqcont
      exact hpmin q ((hmemL q).mpr ⟨hq, hqop⟩) hqcont

/-- Witness for C4 (amended): in sHit the photo pHit (opacity 0.9) contains
the click point, so the primary select zooms some photo. -/
theorem hitTest_selects_nearest_witness :
    ∃ id, (handleInteraction 800 800 400 400 false sHit).zoomedPhotoId
      = some id := by
  have hcont : photoContains sHit.rotation 800 800 400 400 pHit := by
    have : photoContains 0 800 800 400 400 pHit :=
      photoContains_origin pHit rfl rfl rfl rfl rfl
    simpa [show sHit.rotation = 0 from rfl] using this
  exact (hitTest_selects_nearest sHit 800 800 400 400 rfl rfl).2.2.1
    ⟨pHit, by simp [sHit], by norm_num [pHit, cPhoto], hcont⟩

/-- Counterexample to C6: the unified draw list does not tag every photo
with its rotated z. The zoomed photo bypasses rotation: in sZoom (rotation
pi/2, single zoomed photo pZoom at x = 1, z = 0) the only item carries sort
depth 0 (the raw z of pZoom), while the rotated z of pZoom is 1. -/
theorem drawList_zoomed_sortZ_cex :
    buildDrawList sZoom 600 = [DrawItem.photo pZoom pZoom.x pZoom.y pZoom.z] ∧
    DrawItem.sortZ (DrawItem.photo pZoom pZoom.x pZoom.y pZoom.z) = 0 ∧
    pZoom.z * Real.cos sZoom.rotation + pZoom.x * Real.sin sZoom.rotation = 1 ∧
    (0 : ℝ) ≠ 1 := by
  refine ⟨?_, rfl, ?_, by norm_num⟩
  · simp [buildDrawList, sZoom, pZoom, cPhoto]
  · simp [pZoom, cPhoto, sZoom, Real.sin_pi_div_two]

/-- Claim C6 (amended): every frame builds one unified drawable list of all
particles, all photos, and, only when no photo is zoomed, the 20 star
faces; particles and non-zoomed photos are tagged with a sort depth equal
to their rotated z, the zoomed photo with its raw (unrotated) z, star faces
with the average of their three rotated vertex z values; the list is drawn
in descending sort-depth order (farthest first). -/
theorem drawList_painter_order (st : SceneState) (treeHeight : ℝ) :
    (drawOrder st treeHeight).Perm (buildDrawList st treeHeight) ∧
    List.Sorted (fun a b => DrawItem.sortZ b ≤ DrawItem.sortZ a)
      (drawOrder st treeHeight) ∧
    (∀ p rx ry rz, DrawItem.particle p rx ry rz ∈ buildDrawList st treeHeight →
      p ∈ st.particles ∧
      rz = p.z * Real.cos st.rotation + p.x * Real.sin st.rotation ∧
      DrawItem.sortZ (DrawItem.particle p rx ry rz) = rz) ∧
    (∀ p ∈ st.particles,
      DrawItem.particle p
        (p.x * Real.cos st.rotation - p.z * Real.sin st.rotation) p.y
        (p.z * Real.cos st.rotation + p.x * Real.sin st.rotation)
        ∈ buildDrawList st treeHeight) ∧
    (∀ p rx ry rz, DrawItem.photo p rx ry rz ∈ buildDrawList st treeHeight →
      p ∈ st.photos ∧
      (st.zoomedPhotoId = some p.id → rz = p.z) ∧
      (st.zoomedPhotoId ≠ some p.id →
        rz = p.z * Real.cos st.rotation + p.x * Real.sin st.rotation) ∧
      DrawItem.sortZ (DrawItem.photo p rx ry rz) = rz) ∧
    (∀ p ∈ st.photos, ∃ rx ry rz,
      DrawItem.photo p rx ry rz ∈ buildDrawList st treeHeight) ∧
    (∀ v0 v1 v2 a, DrawItem.starFace v0 v1 v2 a ∈ buildDrawList st treeHeight →
      st.zoomedPhotoId = none ∧ a = (v0.z + v1.z + v2.z) / 3 ∧
      DrawItem.sortZ (DrawItem.starFace v0 v1 v2 a) = a) ∧
    (st.zoomedPhotoId = none →
      (buildDrawList st treeHeight).countP DrawItem.isStarFace = 20) ∧
    (st.zoomedPhotoId ≠ none →
      (buildDrawList st treeHeight).countP DrawItem.isStarFace = 0) := by
  refine ⟨List.perm_insertionSort _ _, ?_, ?_, ?_, ?_, ?_, ?_, ?_, ?_⟩
  · haveI : IsTotal DrawItem (fun a b => DrawItem.sortZ b ≤ DrawItem.sortZ a) :=
      ⟨fun a b => le_total (DrawItem.sortZ b) (DrawItem.sortZ a)⟩
    haveI : IsTrans DrawItem (fun a b => DrawItem.sortZ b ≤ DrawItem.sortZ a) :=
      ⟨fun _ _ _ hab hbc => le_trans hbc hab⟩
    exact List.sorted_insertionSort _ _
  · intro p rx ry rz h
    simp only [buildDrawList, List.mem_append, List.mem_map] at h
    rcases h with (⟨q, hq, heq⟩ | ⟨q, hq, heq⟩) | h
    · simp only [DrawItem.particle.injEq] at heq
      obtain ⟨rfl, rfl, rfl, rfl⟩ := heq
      exact ⟨hq, rfl, rfl⟩
    · simp at heq
    · split_ifs at h with hz
      · simp only [List.mem_map] at h
        obtain ⟨f, hf, heq⟩ := h
        simp at heq
      · simp at h
  · intro p hp
    simp only [buildDrawList, List.mem_append, List.mem_map]
    left
    left
    exact ⟨p, hp, rfl⟩
  · intro p rx ry rz h
    simp only [buildDrawList, List.mem_append, List.mem_map] at h
    rcases h with (⟨q, hq, heq⟩ | ⟨q, hq, heq⟩) | h
    · simp at heq
    · simp only [DrawItem.photo.injEq] at heq
      obtain ⟨rfl, rfl, rfl, rfl⟩ := heq
      refine ⟨hq, ?_, ?_, rfl⟩
      · intro hid
        rw [if_pos hid]
      · intro hid
        rw [if_neg hid]
    · split_ifs at h with hz
      · simp only [List.mem_map] at h
        obtain ⟨f, hf, heq⟩ := h
        simp at heq
      · simp at h
  · intro p hp
    refine ⟨if st.zoomedPhotoId = some p.id then p.x
        else p.x * Real.cos st.rotation - p.z * Real.sin st.rotation,
      p.y,
      if st.zoomedPhotoId = some p.id then p.z
        else p.z * Real.cos st.rotation + p.x * Real.sin st.rotation, ?_⟩
    simp only [buildDrawList, List.mem_append, List.mem_map]
    left
    right
    exact ⟨p, hp, rfl⟩
  · intro v0 v1 v2 a h
    simp only [buildDrawList, List.mem_append, List.mem_map] at h
    rcases h with (⟨q, hq, heq⟩ | ⟨q, hq, heq⟩) | h
    · simp at heq
    · simp at heq
    · split_ifs at h with hz
      · simp only [List.mem_map] at h
        obtain ⟨f, hf, heq⟩ := h
        simp only [DrawItem.starFace.injEq] at heq
        obtain ⟨rfl, rfl, rfl, rfl⟩ := heq
        exact ⟨hz, rfl, rfl⟩
      · simp at h
  · intro hz
    simp only [buildDrawList]
    rw [if_pos hz, List.countP_append, List.countP_append, List.countP_map,
      List.countP_map, List.countP_map]
    rw [List.countP_eq_zero.mpr (fun a _ => by simp [Function.comp, DrawItem.isStarFace]),
      List.countP_eq_zero.mpr (fun a _ => by simp [Function.comp, DrawItem.isStarFace])]
    rfl
  · intro hz
    simp only [buildDrawList]
    rw [if_neg hz, List.countP_append, List.countP_append, List.countP_map,
      List.countP_map]
    rw [List.countP_eq_zero.mpr (fun a _ => by simp [Function.comp, DrawItem.isStarFace]),
      List.countP_eq_zero.mpr (fun a _ => by simp [Function.comp, DrawItem.isStarFace])]
    rfl

/-- Witness for C6 (amended): with nothing zoomed the unified list of the
empty-scene fixture contains exactly the 20 star faces. -/
theorem drawList_painter_order_witness :
    (buildDrawList sFree 600).countP DrawItem.isStarFace = 20 :=
  (drawList_painter_order sFree 600).2.2.2.2.2.2.2.1 rfl
